import Mathlib

/-!
Shallow embedding of the signal-generation and probability-estimation
pipeline of `AdvancedStockAnalyzer` (src/app.py).

Modelling conventions:
* pandas/NumPy floats are modelled as `ℚ`; a NaN cell is `none : Option ℚ`.
* `np.sqrt` / the float square root is an abstract parameter
  `sq : ℚ → ℚ` threaded through every definition that the source
  computes with a square root; concrete evaluations instantiate it with
  `ratSqrt`, the exact rational square root on perfect squares.
* Rolling windows follow pandas defaults (`min_periods = window`, sample
  standard deviation with `ddof = 1`); a window containing a NaN yields NaN.
* `pd.Series.ewm(span=s).mean()` follows pandas defaults
  (`adjust=True`, `ignore_na=False`).
-/

set_option maxRecDepth 1000000

namespace StockApp

/-- Sum of a list of rationals. -/
def listSum (xs : List ℚ) : ℚ := xs.foldr (· + ·) 0

/-- `Series.mean()`: arithmetic mean (division by zero when empty, like ℚ). -/
def listMean (xs : List ℚ) : ℚ := listSum xs / (xs.length : ℚ)

/-- Sample variance with `ddof = 1` (pandas `Series.std()^2`, `np.cov` diagonal). -/
def listVar1 (xs : List ℚ) : ℚ :=
  listSum (xs.map (fun x => (x - listMean xs) ^ 2)) / ((xs.length : ℚ) - 1)

/-- Population variance with `ddof = 0` (`np.var`). -/
def listVar0 (xs : List ℚ) : ℚ :=
  listSum (xs.map (fun x => (x - listMean xs) ^ 2)) / (xs.length : ℚ)

/-- Sample covariance with `ddof = 1` (`np.cov(x, y)[0, 1]`, NumPy default `bias=False`). -/
def listCov1 (xs ys : List ℚ) : ℚ :=
  listSum ((xs.zip ys).map (fun p => (p.1 - listMean xs) * (p.2 - listMean ys))) /
    ((xs.length : ℚ) - 1)

/-- Integer square root by binary search on 64 result bits (enough for every
number these models meet); structurally recursive so that concrete instances
evaluate inside the kernel. -/
def isqrt (n : ℕ) : ℕ :=
  (List.range 64).foldl (fun r i =>
    let r2 := r + 2 ^ (63 - i)
    if r2 * r2 ≤ n then r2 else r) 0

/-- Rational square root stand-in: exact whenever numerator and denominator are
perfect squares; used to instantiate the abstract float square root `sq` on
concrete inputs. -/
def ratSqrt (q : ℚ) : ℚ := (isqrt q.num.toNat : ℚ) / (isqrt q.den : ℚ)

/-- Lift a binary arithmetic operation to NaN-propagating cells. -/
def opt2 (f : ℚ → ℚ → ℚ) : Option ℚ → Option ℚ → Option ℚ
  | some a, some b => some (f a b)
  | _, _ => none

/-- `df[col].iloc[-1]` read as an optional value: `none` when the column is
empty or its last cell is NaN. -/
def lastCol (xs : List (Option ℚ)) : Option ℚ := xs.getLast?.join

/-- The trailing window of length `w` ending at index `i`, provided the window
is full and NaN-free (pandas rolling with default `min_periods = window`). -/
def windowAt (xs : List (Option ℚ)) (w i : ℕ) : Option (List ℚ) :=
  if i + 1 < w then none
  else
    let win := (xs.drop (i + 1 - w)).take w
    if win.all Option.isSome then some (win.filterMap id) else none

/-- `Series.rolling(window=w).mean()`. -/
def rollingMean (w : ℕ) (xs : List (Option ℚ)) : List (Option ℚ) :=
  (List.range xs.length).map (fun i => (windowAt xs w i).map listMean)

/-- `Series.rolling(window=w).std()` (sample std, `ddof = 1`); the square root
is the abstract float square root `sq`.  A window of length `< 2` would be NaN,
but every use in the source has `w ≥ 2`. -/
def rollingStd (sq : ℚ → ℚ) (w : ℕ) (xs : List (Option ℚ)) : List (Option ℚ) :=
  (List.range xs.length).map (fun i =>
    (windowAt xs w i).map (fun win => sq (listVar1 win)))

/-- `Series.diff()`: first entry NaN, then pairwise difference. -/
def diffList (xs : List (Option ℚ)) : List (Option ℚ) :=
  (List.range xs.length).map (fun i =>
    match i with
    | 0 => none
    | Nat.succ j => opt2 (fun a b => a - b) (xs.getD i none) (xs.getD j none))

/-- `Series.pct_change()`: `x[t]/x[t-1] - 1`, NaN-propagating, first entry NaN.
(The source only ever applies this to strictly positive close prices, so the
float `x/0 = inf` corner never arises.) -/
def pctChange (xs : List (Option ℚ)) : List (Option ℚ) :=
  (List.range xs.length).map (fun i =>
    match i with
    | 0 => none
    | Nat.succ j => opt2 (fun a b => a / b - 1) (xs.getD i none) (xs.getD j none))

/-- `(1 + returns).cumprod()` with pandas `skipna=True`: NaN cells stay NaN and
are skipped by the accumulator. -/
def cumprodOnePlus (xs : List (Option ℚ)) : List (Option ℚ) :=
  (xs.foldl (fun (st : ℚ × List (Option ℚ)) x =>
    match x with
    | none => (st.1, none :: st.2)
    | some v => (st.1 * (1 + v), (some (st.1 * (1 + v))) :: st.2)) (1, [])).2.reverse

/-- `Series.ewm(span=s).mean()` with pandas defaults `adjust=True`,
`ignore_na=False`: running weighted numerator/denominator, decayed by
`1 - α = 1 - 2/(s+1)` each step; NaN inputs contribute nothing but still decay
the weights, and the output is NaN only before the first valid observation. -/
def ewmMean (span : ℕ) (xs : List (Option ℚ)) : List (Option ℚ) :=
  let alpha : ℚ := 2 / ((span : ℚ) + 1)
  (xs.foldl (fun (st : ℚ × ℚ × List (Option ℚ)) x =>
    let num := (1 - alpha) * st.1 + (match x with | some v => v | none => 0)
    let den := (1 - alpha) * st.2.1 + (match x with | some _ => 1 | none => 0)
    (num, den, (if den = 0 then none else some (num / den)) :: st.2.2))
    (0, 0, [])).2.2.reverse

/-- One bar of the raw yfinance history (`date` is an abstract trading-day
index; `close`/`volume` cells may be NaN). -/
structure RawBar where
  date : ℕ
  close : Option ℚ
  volume : Option ℚ
deriving DecidableEq, Repr

/-- The pandas DataFrame of the pipeline: the per-symbol price history with the
derived columns the analyzer adds.  All columns are index-aligned with `dates`. -/
structure Df where
  dates : List ℕ
  close : List (Option ℚ)
  volume : List (Option ℚ)
  returns : List (Option ℚ)
  cumulative_returns : List (Option ℚ)
  ma_20 : List (Option ℚ)
  ma_50 : List (Option ℚ)
  ma_200 : List (Option ℚ)
  rsi : List (Option ℚ)
  macd : List (Option ℚ)
  macd_signal : List (Option ℚ)
  bb_ma : List (Option ℚ)
  bb_std : List (Option ℚ)
  bb_upper : List (Option ℚ)
  bb_lower : List (Option ℚ)
  volatility : List (Option ℚ)
deriving DecidableEq, Repr

/-- A `Df` with only the raw columns filled in (indicator columns empty). -/
def rawDf (dates : List ℕ) (close volume : List (Option ℚ)) : Df :=
  { dates := dates, close := close, volume := volume
    returns := [], cumulative_returns := []
    ma_20 := [], ma_50 := [], ma_200 := [], rsi := []
    macd := [], macd_signal := []
    bb_ma := [], bb_std := [], bb_upper := [], bb_lower := [], volatility := [] }

/-- The DataFrame `get_stock_data` builds from a non-empty history:
lower-cased columns plus `returns = close.pct_change()` and
`cumulative_returns = (1 + returns).cumprod()`. -/
def stockDf (h : List RawBar) : Df :=
  let close := h.map RawBar.close
  let rets := pctChange close
  { rawDf (h.map RawBar.date) close (h.map RawBar.volume) with
    returns := rets, cumulative_returns := cumprodOnePlus rets }

/-- `AdvancedStockAnalyzer.get_stock_data`, with the external fetch modelled as
the raw history argument: an empty history yields `None`. -/
def get_stock_data (h : List RawBar) : Option Df :=
  if h.isEmpty then none else some (stockDf h)

/-- `delta.where(delta > 0, 0)` for the RSI gains: a NaN delta compares as
`False` against 0 and is therefore replaced by 0 (so the column is total). -/
def rsiGains (delta : List (Option ℚ)) : List ℚ :=
  delta.map (fun d => match d with
    | some v => if v > 0 then v else 0
    | none => 0)

/-- `-delta.where(delta < 0, 0)` for the RSI losses (NaN likewise becomes 0). -/
def rsiLosses (delta : List (Option ℚ)) : List ℚ :=
  delta.map (fun d => match d with
    | some v => if v < 0 then -v else 0
    | none => 0)

/-- One RSI cell: the float evaluation of `100 - 100/(1 + gain/loss)` for the
nonnegative rolling averages `g`, `l`.  For `l = 0` the float expression gives
`gain/loss = inf` hence RSI `= 100` when `g > 0`, and `0/0 = NaN` hence NaN
when `g = 0`; otherwise the value is finite and exact. -/
def rsiCell : Option ℚ → Option ℚ → Option ℚ
  | some g, some l =>
      if l = 0 then (if g = 0 then none else some 100)
      else some (100 - 100 / (1 + g / l))
  | _, _ => none

/-- `AdvancedStockAnalyzer.calculate_technical_indicators`: fills the
moving-average, RSI, MACD, Bollinger and volatility columns from `close` and
`returns`.  (The source's `except` branch is unreachable here: every step is
total.) -/
def calculate_technical_indicators (sq : ℚ → ℚ) (df : Df) : Df :=
  let ma20 := rollingMean 20 df.close
  let delta := diffList df.close
  let gain := rollingMean 14 ((rsiGains delta).map some)
  let loss := rollingMean 14 ((rsiLosses delta).map some)
  let exp1 := ewmMean 12 df.close
  let exp2 := ewmMean 26 df.close
  let macd := List.zipWith (opt2 (fun a b => a - b)) exp1 exp2
  let bbMa := rollingMean 20 df.close
  let bbStd := rollingStd sq 20 df.close
  { df with
    ma_20 := ma20
    ma_50 := rollingMean 50 df.close
    ma_200 := rollingMean 200 df.close
    rsi := List.zipWith rsiCell gain loss
    macd := macd
    macd_signal := ewmMean 9 macd
    bb_ma := bbMa
    bb_std := bbStd
    bb_upper := List.zipWith (opt2 (fun m s => m + s * 2)) bbMa bbStd
    bb_lower := List.zipWith (opt2 (fun m s => m - s * 2)) bbMa bbStd
    volatility := (rollingStd sq 20 df.returns).map (Option.map (fun s => s * sq 252)) }

/-- The five categorical signal labels. -/
inductive SignalLabel where
  | strongBuy | buy | hold | sell | strongSell
deriving DecidableEq, Repr

/-- The reason strings `generate_signal` appends, as an ADT (one constructor
per literal; `rsiNeutral` carries the interpolated RSI value). -/
inductive Reason where
  | oversold                -- "Oversold (RSI < 30)"
  | overbought              -- "Overbought (RSI > 70)"
  | rsiNeutral (rsi : ℚ)    -- f"RSI {rsi:.1f} - Neutral zone"
  | strongUptrend           -- "Strong uptrend"
  | strongDowntrend         -- "Strong downtrend"
  | aboveMa20               -- "Above 20-day average"
  | belowMa20               -- "Below 20-day average"
  | positiveMomentum        -- "Positive momentum"
  | negativeMomentum        -- "Negative momentum"
  | belowLowerBand          -- "Below lower Bollinger Band"
  | aboveUpperBand          -- "Above upper Bollinger Band"
  | insufficientData        -- "Insufficient data for analysis"
deriving DecidableEq, Repr

/-- The dict `generate_signal` returns. -/
structure SignalResult where
  signal : SignalLabel
  confidence : ℤ
  strength : ℤ
  reasons : List Reason
deriving DecidableEq, Repr

/-- The fields of `df.iloc[-1]` that `generate_signal` reads. -/
structure Snapshot where
  close : Option ℚ
  rsi : Option ℚ
  ma_20 : Option ℚ
  ma_50 : Option ℚ
  macd : Option ℚ
  macd_signal : Option ℚ
  bb_upper : Option ℚ
  bb_lower : Option ℚ
deriving DecidableEq, Repr

/-- The latest-row snapshot of a `Df`. -/
def Df.latest (df : Df) : Snapshot :=
  { close := lastCol df.close, rsi := lastCol df.rsi
    ma_20 := lastCol df.ma_20, ma_50 := lastCol df.ma_50
    macd := lastCol df.macd, macd_signal := lastCol df.macd_signal
    bb_upper := lastCol df.bb_upper, bb_lower := lastCol df.bb_lower }

/-- The final strength-to-signal mapping of `generate_signal` (the
`if strength >= 3: ... else: HOLD/50` cascade). -/
def signalFromStrength (strength : ℤ) (reasons : List Reason) : SignalResult :=
  if strength ≥ 3 then
    ⟨.strongBuy, min 95 (60 + strength * 5), strength, reasons⟩
  else if strength ≥ 1 then
    ⟨.buy, min 85 (50 + strength * 8), strength, reasons⟩
  else if strength ≤ -3 then
    ⟨.strongSell, min 95 (60 + |strength| * 5), strength, reasons⟩
  else if strength ≤ -1 then
    ⟨.sell, min 85 (50 + |strength| * 8), strength, reasons⟩
  else
    ⟨.hold, 50, strength, reasons⟩

/-- The RSI scoring block of `generate_signal` (reasons appended, strength
delta): ±3 for oversold/overbought, else the neutral note. -/
def rsiRule (rsi : ℚ) : List Reason × ℤ :=
  if rsi < 30 then ([.oversold], 3)
  else if rsi > 70 then ([.overbought], -3)
  else ([.rsiNeutral rsi], 0)

/-- The moving-average scoring block of `generate_signal`, taking the values
after NaN ma_20/ma_50 have been replaced by the close price: one of its four
branches always fires. -/
def maRule (close_price ma_20 ma_50 : ℚ) : List Reason × ℤ :=
  if close_price > ma_20 ∧ ma_20 > ma_50 then ([.strongUptrend], 2)
  else if close_price < ma_20 ∧ ma_20 < ma_50 then ([.strongDowntrend], -2)
  else if close_price > ma_20 then ([.aboveMa20], 1)
  else ([.belowMa20], -1)

/-- The MACD scoring block of `generate_signal`: skipped (no reason, no score)
unless both macd and macd_signal are defined. -/
def macdRule : Option ℚ → Option ℚ → List Reason × ℤ
  | some m, some ms =>
      if m > ms then ([.positiveMomentum], 1) else ([.negativeMomentum], -1)
  | _, _ => ([], 0)

/-- The Bollinger scoring block of `generate_signal`: skipped (no reason, no
score) unless both bands are defined. -/
def bbRule (close_price : ℚ) : Option ℚ → Option ℚ → List Reason × ℤ
  | some bl, some bu =>
      if close_price < bl then ([.belowLowerBand], 1)
      else if close_price > bu then ([.aboveUpperBand], -1)
      else ([], 0)
  | _, _ => ([], 0)

/-- `AdvancedStockAnalyzer.generate_signal` on the latest-row snapshot: the
four scoring blocks in source order, then the final strength mapping.
The source's inner `if not pd.isna(rsi)` re-check is always true after the
initial availability check, so the RSI rule always fires here. -/
def generate_signal (s : Snapshot) : SignalResult :=
  match s.close, s.rsi with
  | some close_price, some rsi =>
    let r1 := rsiRule rsi
    -- NaN ma_20/ma_50 are replaced by the close price before scoring
    let ma_20 := s.ma_20.getD close_price
    let ma_50 := s.ma_50.getD close_price
    let r2 := maRule close_price ma_20 ma_50
    let r3 := macdRule s.macd s.macd_signal
    let r4 := bbRule close_price s.bb_lower s.bb_upper
    signalFromStrength (r1.2 + r2.2 + r3.2 + r4.2) (r1.1 ++ r2.1 ++ r3.1 ++ r4.1)
  | _, _ => ⟨.hold, 25, 0, [.insufficientData]⟩

/-- One horizon entry of the probability-ranges dict. -/
structure HorizonBand where
  expected_price : ℚ
  prob_68_low : ℚ
  prob_68_high : ℚ
  prob_95_low : ℚ
  prob_95_high : ℚ
  expected_return : ℚ
  volatility : ℚ
deriving DecidableEq, Repr

/-- The probability-ranges dict keyed by the three fixed horizons. -/
structure ProbRanges where
  oneWeek : HorizonBand
  oneMonth : HorizonBand
  threeMonths : HorizonBand
deriving DecidableEq, Repr

/-- `AdvancedStockAnalyzer.calculate_probability_ranges`.  An empty frame makes
`iloc[-1]` raise, which the source's `except` turns into `None`, exactly like a
NaN last close; the `< 30` guard returns the fixed conservative dict; the NaN
re-check on `mean/std` is unreachable for a NaN-free `dropna` result. -/
def calculate_probability_ranges (sq : ℚ → ℚ) (df : Df) : Option ProbRanges :=
  match lastCol df.close with
  | none => none
  | some current_price =>
    let returns := df.returns.filterMap id
    if returns.length < 30 then
      some
        { oneWeek :=
            { expected_price := current_price
              prob_68_low := current_price * 0.98, prob_68_high := current_price * 1.02
              prob_95_low := current_price * 0.95, prob_95_high := current_price * 1.05
              expected_return := 0, volatility := 5 }
          oneMonth :=
            { expected_price := current_price
              prob_68_low := current_price * 0.95, prob_68_high := current_price * 1.05
              prob_95_low := current_price * 0.90, prob_95_high := current_price * 1.10
              expected_return := 0, volatility := 10 }
          threeMonths :=
            { expected_price := current_price
              prob_68_low := current_price * 0.90, prob_68_high := current_price * 1.10
              prob_95_low := current_price * 0.80, prob_95_high := current_price * 1.20
              expected_return := 0, volatility := 15 } }
    else
      let mean_return := listMean returns
      let std_return := sq (listVar1 returns)
      let band := fun (days : ℕ) =>
        let horizon_mean := mean_return * (days : ℚ)
        let horizon_std := std_return * sq (days : ℚ)
        { expected_price := current_price * (1 + horizon_mean)
          prob_68_low :=
            max (current_price * (1 + horizon_mean - horizon_std)) (current_price * 0.5)
          prob_68_high := current_price * (1 + horizon_mean + horizon_std)
          prob_95_low :=
            max (current_price * (1 + horizon_mean - 2 * horizon_std)) (current_price * 0.3)
          prob_95_high := current_price * (1 + horizon_mean + 2 * horizon_std)
          expected_return := horizon_mean * 100
          volatility := horizon_std * 100 : HorizonBand }
      some { oneWeek := band 5, oneMonth := band 22, threeMonths := band 66 }

/-- The risk-metrics dict. -/
structure RiskMetrics where
  annual_return : ℚ
  annual_volatility : ℚ
  sharpe_ratio : ℚ
  sortino_ratio : ℚ
  max_drawdown : ℚ
  calmar_ratio : ℚ
deriving DecidableEq, Repr

/-- `risk_free_rate = 0.045` (fixed configuration constant). -/
def risk_free_rate : ℚ := 0.045

/-- The fixed placeholder risk metrics for short histories. -/
def riskPlaceholder : RiskMetrics :=
  { annual_return := 0, annual_volatility := 15, sharpe_ratio := 0
    sortino_ratio := 0, max_drawdown := -5, calmar_ratio := 0 }

/-- `Series.min` of a rational list (`none` on an empty series). -/
def listMin : List ℚ → Option ℚ
  | [] => none
  | x :: xs => some (xs.foldl min x)

/-- Running maximum `Series.expanding().max()` over a NaN-free list. -/
def expandingMax (xs : List ℚ) : List ℚ :=
  (xs.foldl (fun (st : Option ℚ × List ℚ) x =>
    let m := match st.1 with | none => x | some m => max m x
    (some m, m :: st.2)) (none, [])).2.reverse

/-- `AdvancedStockAnalyzer.calculate_risk_metrics`.  `negative_returns.std()`
of a single element is NaN (`ddof = 1`), modelled as `none`; a NaN downside
deviation fails the `> 0` float comparison, giving `sortino = 0`.  The NaN
re-checks on `annual_return/annual_volatility/max_drawdown` are unreachable
for a NaN-free `dropna` result of length ≥ 30. -/
def calculate_risk_metrics (sq : ℚ → ℚ) (df : Df) : RiskMetrics :=
  let returns := df.returns.filterMap id
  if returns.length < 30 then riskPlaceholder
  else
    let annual_return := listMean returns * 252
    let annual_volatility := sq (listVar1 returns) * sq 252
    let excess_return := annual_return - risk_free_rate
    let sharpe_ratio := if annual_volatility > 0 then excess_return / annual_volatility else 0
    let negative_returns := returns.filter (fun r => r < 0)
    let downside_deviation : Option ℚ :=
      if negative_returns.length > 0 then
        (if negative_returns.length < 2 then none
         else some (sq (listVar1 negative_returns) * sq 252))
      else some annual_volatility
    let sortino_ratio :=
      match downside_deviation with
      | some d => if d > 0 then excess_return / d else 0
      | none => 0
    let cumulative := (returns.map (fun r => 1 + r)).scanl (· * ·) 1 |>.drop 1
    let rolling_max := expandingMax cumulative
    let drawdown := List.zipWith (fun c m => (c - m) / m) cumulative rolling_max
    let max_drawdown := (listMin drawdown).getD (-0.05)
    let calmar_ratio := if max_drawdown ≠ 0 then annual_return / |max_drawdown| else 0
    { annual_return := annual_return * 100
      annual_volatility := annual_volatility * 100
      sharpe_ratio := sharpe_ratio
      sortino_ratio := sortino_ratio
      max_drawdown := max_drawdown * 100
      calmar_ratio := calmar_ratio }

/-- The relative-performance dict. -/
structure RelPerf where
  beta : ℚ
  alpha : ℚ
  correlation : ℚ
  relative_performance : ℚ
  market_return : ℚ
deriving DecidableEq, Repr

/-- `Series.dropna()` keeping the date index. -/
def dropnaDated (dates : List ℕ) (xs : List (Option ℚ)) : List (ℕ × ℚ) :=
  (dates.zip xs).filterMap (fun p => p.2.map (fun v => (p.1, v)))

/-- `AdvancedStockAnalyzer.calculate_relative_performance`: aligns the stock's
return series with the benchmark's `close.pct_change().dropna()` on common
dates, then beta = `np.cov(..)[0,1] / np.var(market)`, alpha via CAPM,
Pearson correlation `np.corrcoef` (`cov1 / sqrt(var1*var1)`). -/
def calculate_relative_performance (sq : ℚ → ℚ) (market_data : Option Df)
    (df : Df) : Option RelPerf :=
  match market_data with
  | none => none
  | some md =>
    let stock_returns := dropnaDated df.dates df.returns
    let market_returns := dropnaDated md.dates (pctChange md.close)
    let common_dates := (stock_returns.map Prod.fst).filter
      (fun d => (market_returns.map Prod.fst).contains d)
    if common_dates.length < 20 then none
    else
      let stock_aligned := common_dates.filterMap (fun d => stock_returns.lookup d)
      let market_aligned := common_dates.filterMap (fun d => market_returns.lookup d)
      let stock_annual := listMean stock_aligned * 252
      let market_annual := listMean market_aligned * 252
      let covariance := listCov1 stock_aligned market_aligned
      let market_variance := listVar0 market_aligned
      let beta := if market_variance > 0 then covariance / market_variance else 1
      let alpha := stock_annual - (risk_free_rate + beta * (market_annual - risk_free_rate))
      let correlation := covariance / sq (listVar1 stock_aligned * listVar1 market_aligned)
      some { beta := beta
             alpha := alpha * 100
             correlation := correlation
             relative_performance := (stock_annual - market_annual) * 100
             market_return := market_annual * 100 }

/-- `safe_float`: NaN (and absent) collapses to the default. -/
def safe_float (v : Option ℚ) (default : ℚ) : ℚ := v.getD default

/-- Python `round` to an integer: banker's rounding (round half to even). -/
def pyRoundInt (q : ℚ) : ℤ :=
  let n := ⌊q⌋
  let f := q - (n : ℚ)
  if f < 1 / 2 then n
  else if 1 / 2 < f then n + 1
  else if n % 2 = 0 then n else n + 1

/-- Python `round(x, d)` on the exact rational model. -/
def pyRound (d : ℕ) (q : ℚ) : ℚ := (pyRoundInt (q * 10 ^ d) : ℚ) / 10 ^ d

/-- `safe_round(value, decimals, default)`. -/
def safe_round (v : Option ℚ) (decimals : ℕ) (default : ℚ) : ℚ :=
  pyRound decimals (safe_float v default)

/-- Python `int(...)`: truncation toward zero. -/
def pyInt (q : ℚ) : ℤ := q.num.tdiv q.den

/-- The `technical_details` sub-dict of the analysis record. -/
structure TechDetails where
  ma_20 : ℚ
  ma_50 : ℚ
  ma_200 : ℚ
  macd : ℚ
  bb_position : ℚ
  reasons : List Reason
deriving DecidableEq, Repr

/-- The per-symbol analysis record `analyze_stock` returns (the `symbol` key
is just the input symbol and is omitted). -/
structure Analysis where
  current_price : ℚ
  signal : SignalLabel
  confidence : ℚ
  rsi : ℚ
  volume : ℤ
  volatility : ℚ
  probability_ranges : Option ProbRanges
  risk_metrics : RiskMetrics
  relative_performance : Option RelPerf
  technical_details : TechDetails
deriving DecidableEq, Repr

/-- `AdvancedStockAnalyzer.analyze_stock` for one symbol: the external fetch is
the `hist` argument (`none` = fetch failure).  Empty history → `None`; NaN
latest close or RSI → `None`; otherwise the packaged record with safe
defaults. -/
def analyze_stock (sq : ℚ → ℚ) (market_data : Option Df)
    (hist : Option (List RawBar)) : Option Analysis :=
  match hist with
  | none => none
  | some h =>
    match get_stock_data h with
    | none => none
    | some df0 =>
      let df := calculate_technical_indicators sq df0
      let latest := df.latest
      match latest.close, latest.rsi with
      | some close0, some rsi0 =>
        let probability_ranges := calculate_probability_ranges sq df
        let risk_metrics := calculate_risk_metrics sq df
        let relative_performance := calculate_relative_performance sq market_data df
        let signal_data := generate_signal latest
        let current_price := safe_float (some close0) 0
        let rsi_value := safe_float (some rsi0) 0
        let volume_value := safe_float (lastCol df.volume) 0
        let volatility_value := safe_float (lastCol df.volatility) 0
        let ma_20 := safe_float latest.ma_20 current_price
        let ma_50 := safe_float latest.ma_50 current_price
        let ma_200 := safe_float (lastCol df.ma_200) current_price
        let macd_value := safe_float latest.macd 0
        let bb_upper := safe_float latest.bb_upper (current_price * 1.02)
        let bb_lower := safe_float latest.bb_lower (current_price * 0.98)
        let bb_position :=
          if bb_upper ≠ bb_lower then
            max 0 (min 100 ((current_price - bb_lower) / (bb_upper - bb_lower) * 100))
          else (50 : ℚ)
        some
          { current_price := pyRound 2 current_price
            signal := signal_data.signal
            confidence := pyRound 1 (signal_data.confidence : ℚ)
            rsi := pyRound 1 rsi_value
            volume := pyInt volume_value
            volatility := pyRound 1 volatility_value
            probability_ranges := probability_ranges
            risk_metrics := risk_metrics
            relative_performance := relative_performance
            technical_details :=
              { ma_20 := pyRound 2 ma_20
                ma_50 := pyRound 2 ma_50
                ma_200 := pyRound 2 ma_200
                macd := pyRound 3 macd_value
                bb_position := pyRound 1 bb_position
                reasons := signal_data.reasons } }
      | _, _ => none

/-- The spec's formula for the probability bands (§4.3 of the spec), written
from the spec's words for comparison with `calculate_probability_ranges`:
`horizon_mean = mean_return·d`, `horizon_std = std_return·√d`,
`expected_price = price·(1+horizon_mean)`, 68% band
`price·(1+horizon_mean±horizon_std)`, 95% band
`price·(1+horizon_mean±2·horizon_std)`, lows clamped to 50% / 30% of price. -/
def probRangesSpec (sq : ℚ → ℚ) (price mean_return std_return : ℚ) : ProbRanges :=
  let band := fun (days : ℕ) =>
    let horizon_mean := mean_return * (days : ℚ)
    let horizon_std := std_return * sq (days : ℚ)
    { expected_price := price * (1 + horizon_mean)
      prob_68_low := max (price * (1 + horizon_mean - horizon_std)) (price * 0.5)
      prob_68_high := price * (1 + horizon_mean + horizon_std)
      prob_95_low := max (price * (1 + horizon_mean - 2 * horizon_std)) (price * 0.3)
      prob_95_high := price * (1 + horizon_mean + 2 * horizon_std)
      expected_return := horizon_mean * 100
      volatility := horizon_std * 100 : HorizonBand }
  { oneWeek := band 5, oneMonth := band 22, threeMonths := band 66 }

/-! Concrete histories used by witnesses and counterexamples. -/

/-- A history of 21 trading days alternating 100/101: every indicator through the 20-bar
window is defined at the last bar. -/
def barsAlt21 : List RawBar :=
  (List.range 21).map (fun i =>
    { date := i, close := some (if i % 2 = 0 then 100 else 101), volume := some 1000 })

/-- A history of 15 flat closes: the last RSI window has zero average gain and zero average
loss. -/
def barsFlat15 : List RawBar :=
  (List.range 15).map (fun i => { date := i, close := some 100, volume := some 1000 })

/-- A history of 5 bars: too short for any RSI value. -/
def barsShort5 : List RawBar :=
  (List.range 5).map (fun i => { date := i, close := some 100, volume := some 1000 })

/-- A history of 31 flat closes: 30 valid returns, enough for the statistical branch. -/
def barsFlat31 : List RawBar :=
  (List.range 31).map (fun i => { date := i, close := some 100, volume := some 1000 })

/-- A history of 21 closes whose percentage returns alternate +19% / −19% (ten of each):
zero mean, and the aligned-window variances are perfect rational squares. -/
def barsBench21 : List RawBar :=
  (List.range 21).map (fun i =>
    { date := i
      close := some (100 * (119 / 100) ^ ((i + 1) / 2) * (81 / 100) ^ (i / 2))
      volume := some 1000 })

/-- A frame holding just a return series (29 gains of 1%, one loss of 1%):
exactly one negative return among 30. -/
def dfOneLoss : Df :=
  { rawDf [] [] [] with
    returns := List.replicate 29 (some (1 / 100)) ++ [some (-1 / 100)] }

/-- The table of outcomes of the final strength-to-(label, confidence)
mapping: the documented rule table, the five-label range, and confidence
within [0, 100]. -/
def StrengthTable (r : SignalResult) : Prop :=
  (3 ≤ r.strength → r.signal = .strongBuy ∧ r.confidence = min 95 (60 + r.strength * 5)) ∧
  (1 ≤ r.strength ∧ r.strength < 3 →
    r.signal = .buy ∧ r.confidence = min 85 (50 + r.strength * 8)) ∧
  (r.strength ≤ -3 →
    r.signal = .strongSell ∧ r.confidence = min 95 (60 + |r.strength| * 5)) ∧
  (-3 < r.strength ∧ r.strength ≤ -1 →
    r.signal = .sell ∧ r.confidence = min 85 (50 + |r.strength| * 8)) ∧
  (-1 < r.strength ∧ r.strength < 1 → r.signal = .hold ∧ r.confidence = 50) ∧
  (r.signal = .strongBuy ∨ r.signal = .buy ∨ r.signal = .hold ∨
    r.signal = .sell ∨ r.signal = .strongSell) ∧
  0 ≤ r.confidence ∧ r.confidence ≤ 100

/-! ## Theorems -/

/-- The final mapping keeps the accumulated strength. -/
theorem signalFromStrength_strength (st : ℤ) (rs : List Reason) :
    (signalFromStrength st rs).strength = st := by
  unfold signalFromStrength
  split_ifs <;> rfl

/-- The final mapping keeps the reasons. -/
theorem signalFromStrength_reasons (st : ℤ) (rs : List Reason) :
    (signalFromStrength st rs).reasons = rs := by
  unfold signalFromStrength
  split_ifs <;> rfl

/-- The strength-to-(label, confidence) table satisfied by the final mapping. -/
theorem signalFromStrength_table (st : ℤ) (rs : List Reason) :
    StrengthTable (signalFromStrength st rs) := by
  have h0 : (0 : ℤ) ≤ |st| := abs_nonneg st
  have hch : |st| = st ∨ |st| = -st := abs_choice st
  unfold StrengthTable signalFromStrength
  split_ifs with h1 h2 h3 h4 <;>
    dsimp only <;>
    refine ⟨fun h => ?_, fun h => ?_, fun h => ?_, fun h => ?_, fun h => ?_, ?_, ?_, ?_⟩ <;>
    first
      | exact ⟨rfl, rfl⟩
      | omega
      | (exact absurd h (by omega))
      | (rw [le_min_iff]; omega)
      | (exact le_trans (min_le_left _ _) (by norm_num))
      | simp

/-- Every indicator snapshot with a defined close and RSI takes the main
branch: the result is the final mapping of the accumulated strength. -/
theorem generate_signal_reduces (s : Snapshot) (c rv : ℚ)
    (hc : s.close = some c) (hr : s.rsi = some rv) :
    ∃ st rs, generate_signal s = signalFromStrength st rs := by
  obtain ⟨cl, rs0, m20, m50, mc, ms, bu, bl⟩ := s
  simp only at hc hr
  subst hc hr
  exact ⟨_, _, rfl⟩

/-- C2: for every snapshot whose latest close and RSI are defined,
`generate_signal` maps the accumulated integer strength to (label, confidence)
exactly by the documented table, the label is one of the five labels, and the
confidence lies in [0, 100]. -/
theorem generate_signal_strength_table (s : Snapshot) (c rv : ℚ)
    (hc : s.close = some c) (hr : s.rsi = some rv) :
    StrengthTable (generate_signal s) := by
  obtain ⟨st, rs, hEq⟩ := generate_signal_reduces s c rv hc hr
  rw [hEq]
  exact signalFromStrength_table st rs

/-- Witness for C2 at a concrete snapshot. -/
theorem generate_signal_strength_table_witness :
    StrengthTable (generate_signal
      { close := some 100, rsi := some 50, ma_20 := some 90, ma_50 := some 80
        macd := some 2, macd_signal := some 1, bb_upper := some 120
        bb_lower := some 80 }) :=
  generate_signal_strength_table _ 100 50 rfl rfl

/-- C4: a NaN latest close or latest RSI makes `generate_signal` return the
insufficient-data floor HOLD / 25 / 0 with the single insufficient-data
reason, before any scoring rule runs. -/
theorem generate_signal_insufficient (s : Snapshot)
    (h : s.close = none ∨ s.rsi = none) :
    generate_signal s =
      { signal := .hold, confidence := 25, strength := 0
        reasons := [.insufficientData] } := by
  obtain ⟨cl, rs0, m20, m50, mc, ms, bu, bl⟩ := s
  rcases h with h | h
  · simp only at h; subst h; cases rs0 <;> rfl
  · simp only at h; subst h; cases cl <;> rfl

/-- Witness for C4: a snapshot with a close but no RSI. -/
theorem generate_signal_insufficient_witness :
    generate_signal
      { close := some 100, rsi := none, ma_20 := some 90, ma_50 := some 80
        macd := some 2, macd_signal := some 1, bb_upper := some 120
        bb_lower := some 80 } =
    { signal := .hold, confidence := 25, strength := 0
      reasons := [.insufficientData] } :=
  generate_signal_insufficient _ (Or.inr rfl)

/-- C1 counterexample: with close = 100 and RSI = 50 defined but every other
indicator NaN, the moving-average rule still scores (strength −1, not 0) and
still appends its reason — the claim's "the moving-average rule does not score
at all" fails: NaN ma_20/ma_50 are substituted by the close price instead of
being skipped. -/
theorem generate_signal_ma_not_skipped :
    (generate_signal
      { close := some 100, rsi := some 50, ma_20 := none, ma_50 := none
        macd := none, macd_signal := none, bb_upper := none,
        bb_lower := none }).strength = -1 ∧
    Reason.belowMa20 ∈ (generate_signal
      { close := some 100, rsi := some 50, ma_20 := none, ma_50 := none
        macd := none, macd_signal := none, bb_upper := none,
        bb_lower := none }).reasons := by
  with_unfolding_all decide

/-- C1 (amended): for every snapshot with close and RSI defined,
`generate_signal` is exactly the final mapping of the four scoring blocks in
source order, and: an undefined member of the MACD pair skips the MACD rule
(no score, no reason) whatever the other fields hold; an undefined member of
the Bollinger pair likewise skips the Bollinger rule; the moving-average rule
is never skipped — it always contributes a nonzero score and exactly one
reason, with undefined ma_20/ma_50 replaced by the close price — and when
ma_20 and ma_50 are both undefined it contributes −1 with the
below-the-20-day-average reason. -/
theorem generate_signal_skip_amended (s : Snapshot) (c rv : ℚ)
    (hc : s.close = some c) (hr : s.rsi = some rv) :
    (generate_signal s =
      signalFromStrength
        ((rsiRule rv).2 + (maRule c (s.ma_20.getD c) (s.ma_50.getD c)).2 +
          (macdRule s.macd s.macd_signal).2 + (bbRule c s.bb_lower s.bb_upper).2)
        ((rsiRule rv).1 ++ (maRule c (s.ma_20.getD c) (s.ma_50.getD c)).1 ++
          (macdRule s.macd s.macd_signal).1 ++ (bbRule c s.bb_lower s.bb_upper).1)) ∧
    (s.macd = none ∨ s.macd_signal = none →
      macdRule s.macd s.macd_signal = ([], 0)) ∧
    (s.bb_lower = none ∨ s.bb_upper = none →
      bbRule c s.bb_lower s.bb_upper = ([], 0)) ∧
    ((maRule c (s.ma_20.getD c) (s.ma_50.getD c)).2 ≠ 0 ∧
      (maRule c (s.ma_20.getD c) (s.ma_50.getD c)).1.length = 1) ∧
    (s.ma_20 = none → s.ma_50 = none →
      maRule c (s.ma_20.getD c) (s.ma_50.getD c) = ([Reason.belowMa20], -1)) := by
  obtain ⟨cl, rs0, m20, m50, mc, ms, bu, bl⟩ := s
  simp only at hc hr ⊢
  subst hc hr
  refine ⟨rfl, ?_, ?_, ?_, ?_⟩
  · rintro (h | h) <;> subst h
    · rfl
    · cases mc <;> rfl
  · rintro (h | h) <;> subst h
    · rfl
    · cases bl <;> rfl
  · unfold maRule
    split_ifs <;> simp
  · intro h20 h50
    subst h20 h50
    simp [maRule, lt_irrefl]

/-- Witness for the amended C1 at a concrete oversold snapshot: the MACD rule
(signal line defined, MACD line NaN) and the Bollinger rule (upper band
defined, lower NaN) contribute nothing, and the moving-average rule with both
averages NaN contributes −1, so the result is the oversold +3 minus 1. -/
theorem generate_signal_skip_amended_witness :
    generate_signal
      { close := some 100, rsi := some 20, ma_20 := none, ma_50 := none
        macd := none, macd_signal := some 1, bb_upper := some 1,
        bb_lower := none } =
      signalFromStrength 2 [Reason.oversold, Reason.belowMa20] ∧
    macdRule none (some 1) = ([], 0) ∧
    bbRule 100 none (some 1) = ([], 0) := by
  obtain ⟨h1, h2, h3, _, h5⟩ := generate_signal_skip_amended
    { close := some 100, rsi := some 20, ma_20 := none, ma_50 := none
      macd := none, macd_signal := some 1, bb_upper := some 1, bb_lower := none }
    100 20 rfl rfl
  refine ⟨?_, h2 (Or.inl rfl), h3 (Or.inl rfl)⟩
  rw [h1]
  with_unfolding_all decide

/-- C3: with a defined current price and fewer than 30 valid returns,
`calculate_probability_ranges` returns exactly the fixed conservative
placeholder bands (expected price = current price, expected return 0,
volatility 5/10/15, the documented ±2/5/10/20% ranges), not statistics
computed from the series. -/
theorem probability_ranges_placeholder (sq : ℚ → ℚ) (df : Df) (p : ℚ)
    (hp : lastCol df.close = some p)
    (hn : (df.returns.filterMap id).length < 30) :
    calculate_probability_ranges sq df =
      some
        { oneWeek :=
            { expected_price := p
              prob_68_low := p * 0.98, prob_68_high := p * 1.02
              prob_95_low := p * 0.95, prob_95_high := p * 1.05
              expected_return := 0, volatility := 5 }
          oneMonth :=
            { expected_price := p
              prob_68_low := p * 0.95, prob_68_high := p * 1.05
              prob_95_low := p * 0.90, prob_95_high := p * 1.10
              expected_return := 0, volatility := 10 }
          threeMonths :=
            { expected_price := p
              prob_68_low := p * 0.90, prob_68_high := p * 1.10
              prob_95_low := p * 0.80, prob_95_high := p * 1.20
              expected_return := 0, volatility := 15 } } := by
  unfold calculate_probability_ranges
  rw [hp]
  simp only [if_pos hn]

/-- Witness for C3: five flat bars give 4 valid returns. -/
theorem probability_ranges_placeholder_witness :
    calculate_probability_ranges ratSqrt (stockDf barsShort5) =
      some
        { oneWeek :=
            { expected_price := 100
              prob_68_low := 100 * 0.98, prob_68_high := 100 * 1.02
              prob_95_low := 100 * 0.95, prob_95_high := 100 * 1.05
              expected_return := 0, volatility := 5 }
          oneMonth :=
            { expected_price := 100
              prob_68_low := 100 * 0.95, prob_68_high := 100 * 1.05
              prob_95_low := 100 * 0.90, prob_95_high := 100 * 1.10
              expected_return := 0, volatility := 10 }
          threeMonths :=
            { expected_price := 100
              prob_68_low := 100 * 0.90, prob_68_high := 100 * 1.10
              prob_95_low := 100 * 0.80, prob_95_high := 100 * 1.20
              expected_return := 0, volatility := 15 } } :=
  probability_ranges_placeholder ratSqrt (stockDf barsShort5) 100
    (by with_unfolding_all decide) (by with_unfolding_all decide)

/-- C6: with a defined current price and at least 30 valid returns,
`calculate_probability_ranges` computes exactly the spec's square-root-of-time
bands for the horizons 5/22/66 trading days, with the 68% low clamped to half
the current price and the 95% low clamped to 0.3 of it: the code agrees with
`probRangesSpec` applied to the sample mean and sample standard deviation of
the valid returns. -/
theorem probability_ranges_statistical (sq : ℚ → ℚ) (df : Df) (p : ℚ)
    (hp : lastCol df.close = some p)
    (hn : 30 ≤ (df.returns.filterMap id).length) :
    calculate_probability_ranges sq df =
      some
        (probRangesSpec sq p (listMean (df.returns.filterMap id))
          (sq (listVar1 (df.returns.filterMap id)))) := by
  unfold calculate_probability_ranges probRangesSpec
  rw [hp]
  simp only [if_neg (by omega : ¬ (List.filterMap id df.returns).length < 30)]

/-- Witness for C6: 31 flat bars give 30 valid zero returns. -/
theorem probability_ranges_statistical_witness :
    calculate_probability_ranges ratSqrt (stockDf barsFlat31) =
      some
        (probRangesSpec ratSqrt 100
          (listMean ((stockDf barsFlat31).returns.filterMap id))
          (ratSqrt (listVar1 ((stockDf barsFlat31).returns.filterMap id)))) :=
  probability_ranges_statistical ratSqrt (stockDf barsFlat31) 100
    (by with_unfolding_all decide) (by with_unfolding_all decide)

/-- C5: `analyze_stock` returns `none` (no partial record, no exception) when
the history is missing, when it is empty, and when the latest close or latest
RSI of the prepared frame is undefined. -/
theorem analyze_stock_absent (sq : ℚ → ℚ) (md : Option Df) :
    analyze_stock sq md none = none ∧
    analyze_stock sq md (some []) = none ∧
    (∀ h : List RawBar, h.isEmpty = false →
      (calculate_technical_indicators sq (stockDf h)).latest.close = none ∨
      (calculate_technical_indicators sq (stockDf h)).latest.rsi = none →
      analyze_stock sq md (some h) = none) := by
  refine ⟨rfl, rfl, fun h hne hcr => ?_⟩
  simp only [analyze_stock, get_stock_data, hne, Bool.false_eq_true, if_false]
  rcases hcr with hc | hc
  · rw [hc]
  · rw [hc]
    rcases (calculate_technical_indicators sq (stockDf h)).latest.close with _ | c <;> rfl

/-- Witness for C5: a missing history, an empty history, and a 5-bar history
(too short for RSI) all yield `none`. -/
theorem analyze_stock_absent_witness :
    analyze_stock ratSqrt none none = none ∧
    analyze_stock ratSqrt none (some []) = none ∧
    analyze_stock ratSqrt none (some barsShort5) = none := by
  refine ⟨(analyze_stock_absent ratSqrt none).1, (analyze_stock_absent ratSqrt none).2.1,
    (analyze_stock_absent ratSqrt none).2.2 barsShort5 (by with_unfolding_all decide)
      (Or.inr (by with_unfolding_all decide))⟩

/-- C10: with at least 30 valid returns of which exactly one is negative, the
downside deviation is the sample standard deviation of a one-element series —
NaN — so the `> 0` float guard fails and `calculate_risk_metrics` returns
sortino_ratio = 0 (the annual-volatility fallback applies only when no
negative return exists). -/
theorem risk_metrics_sortino_single_negative (sq : ℚ → ℚ) (df : Df)
    (hn : 30 ≤ (df.returns.filterMap id).length)
    (hneg : ((df.returns.filterMap id).filter (fun r => r < 0)).length = 1) :
    (calculate_risk_metrics sq df).sortino_ratio = 0 := by
  unfold calculate_risk_metrics
  simp only [if_neg (by omega : ¬ (List.filterMap id df.returns).length < 30)]
  rw [hneg]
  norm_num

/-- Witness for C10: 29 gains of 1% and a single loss of 1%. -/
theorem risk_metrics_sortino_single_negative_witness :
    (calculate_risk_metrics ratSqrt dfOneLoss).sortino_ratio = 0 :=
  risk_metrics_sortino_single_negative ratSqrt dfOneLoss
    (by with_unfolding_all decide) (by with_unfolding_all decide)

/-- C8: on a stock whose return series is identical to the benchmark's over an
aligned window of 20 dates (alternating ±19% returns, zero mean, nonzero
variance), `calculate_relative_performance` returns beta = 20/19 ≈ 1.0526 —
not ≈ 1.0 — because `np.cov` divides by n−1 while `np.var` divides by n; alpha
is correspondingly 9/38% rather than ≈ 0.  Correlation is 1 and relative
performance 0 as claimed. -/
theorem relative_performance_identical_series :
    calculate_relative_performance ratSqrt (some (stockDf barsBench21))
        (stockDf barsBench21) =
      some
        { beta := 20 / 19, alpha := 9 / 38, correlation := 1
          relative_performance := 0, market_return := 0 } ∧
    (20 : ℚ) / 19 ≠ 1 := by
  constructor
  · with_unfolding_all decide
  · with_unfolding_all decide

/-- C9: on a 21-bar history whose latest rolling annualized volatility is
defined and nonzero, the surfaced `volatility` field is the rounded decimal
fraction (0.2), not the volatility expressed as a percentage (which would
round to 15.3): the `* 100` the spec describes is missing. -/
theorem analysis_volatility_not_percent :
    (analyze_stock ratSqrt none (some barsAlt21)).map Analysis.volatility =
        some (1 / 5) ∧
    pyRound 1
        (100 * safe_float
          (lastCol (calculate_technical_indicators ratSqrt (stockDf barsAlt21)).volatility)
          0) = 153 / 10 ∧
    (1 : ℚ) / 5 ≠ 153 / 10 := by
  refine ⟨?_, ?_, ?_⟩ <;> with_unfolding_all decide

/-- A list of nonnegative rationals has a nonnegative sum. -/
theorem listSum_nonneg (xs : List ℚ) (h : ∀ x ∈ xs, 0 ≤ x) : 0 ≤ listSum xs := by
  induction xs with
  | nil => simp [listSum]
  | cons a as ih =>
    have ha := h a (List.mem_cons_self a as)
    have hs := ih (fun x hx => h x (List.mem_cons_of_mem a hx))
    show 0 ≤ a + listSum as
    exact add_nonneg ha hs

/-- A list of nonnegative rationals has a nonnegative mean. -/
theorem listMean_nonneg (xs : List ℚ) (h : ∀ x ∈ xs, 0 ≤ x) : 0 ≤ listMean xs :=
  div_nonneg (listSum_nonneg xs h) (Nat.cast_nonneg xs.length)

/-- A full window taken from an all-defined column consists of column values. -/
theorem windowAt_map_some (ys : List ℚ) (w i : ℕ) (win : List ℚ)
    (h : windowAt (ys.map some) w i = some win) : ∀ x ∈ win, x ∈ ys := by
  simp only [windowAt] at h
  split at h
  · exact absurd h (by simp)
  · split at h
    · have h3 := Option.some.inj h
      intro x hx
      rw [← h3, List.mem_filterMap] at hx
      obtain ⟨a, ha, hax⟩ := hx
      simp only [id] at hax
      subst hax
      have hms : some x ∈ ys.map some :=
        List.mem_of_mem_drop (List.mem_of_mem_take ha)
      rw [List.mem_map] at hms
      obtain ⟨y, hy, hxy⟩ := hms
      cases Option.some.inj hxy
      exact hy
    · exact absurd h (by simp)

/-- Every defined cell of a rolling mean over an all-defined column is the
mean of a sub-window of that column. -/
theorem mem_rollingMean_map_some (w : ℕ) (ys : List ℚ) (m : ℚ)
    (h : some m ∈ rollingMean w (ys.map some)) :
    ∃ win : List ℚ, (∀ x ∈ win, x ∈ ys) ∧ m = listMean win := by
  simp only [rollingMean, List.mem_map] at h
  obtain ⟨i, _, hcell⟩ := h
  rw [Option.map_eq_some'] at hcell
  obtain ⟨win, hwin, hm⟩ := hcell
  exact ⟨win, windowAt_map_some ys w i win hwin, hm.symm⟩

/-- Members of a zipWith come from members of the two lists. -/
theorem exists_of_mem_zipWith {α β γ : Type} {f : α → β → γ} {as : List α}
    {bs : List β} {c : γ} (h : c ∈ List.zipWith f as bs) :
    ∃ a b, a ∈ as ∧ b ∈ bs ∧ c = f a b := by
  induction as generalizing bs with
  | nil => simp at h
  | cons a as ih =>
    cases bs with
    | nil => simp at h
    | cons b bs =>
      rw [List.zipWith_cons_cons, List.mem_cons] at h
      rcases h with rfl | h
      · exact ⟨a, b, List.mem_cons_self a as, List.mem_cons_self b bs, rfl⟩
      · obtain ⟨x, y, hx, hy, rfl⟩ := ih h
        exact ⟨x, y, List.mem_cons_of_mem _ hx, List.mem_cons_of_mem _ hy, rfl⟩

/-- The gains column is pointwise nonnegative. -/
theorem rsiGains_nonneg (delta : List (Option ℚ)) :
    ∀ x ∈ rsiGains delta, 0 ≤ x := by
  intro x hx
  simp only [rsiGains, List.mem_map] at hx
  obtain ⟨d, _, rfl⟩ := hx
  cases d with
  | none => exact le_refl 0
  | some v =>
    dsimp only
    split_ifs with h
    · exact le_of_lt h
    · exact le_refl 0

/-- The losses column is pointwise nonnegative. -/
theorem rsiLosses_nonneg (delta : List (Option ℚ)) :
    ∀ x ∈ rsiLosses delta, 0 ≤ x := by
  intro x hx
  simp only [rsiLosses, List.mem_map] at hx
  obtain ⟨d, _, rfl⟩ := hx
  cases d with
  | none => exact le_refl 0
  | some v =>
    dsimp only
    split_ifs with h
    · linarith
    · exact le_refl 0

/-- A defined RSI cell with nonnegative average gain and loss lies in
[0, 100]. -/
theorem rsiCell_range (g l r : ℚ) (hg : 0 ≤ g) (hl : 0 ≤ l)
    (h : rsiCell (some g) (some l) = some r) : 0 ≤ r ∧ r ≤ 100 := by
  simp only [rsiCell] at h
  by_cases h0 : l = 0
  · rw [if_pos h0] at h
    by_cases hg0 : g = 0
    · rw [if_pos hg0] at h
      exact absurd h (by simp)
    · rw [if_neg hg0] at h
      cases Option.some.inj h
      constructor <;> norm_num
  · rw [if_neg h0] at h
    have hlpos : 0 < l := lt_of_le_of_ne hl (Ne.symm h0)
    have hdiv : 0 ≤ g / l := div_nonneg hg hlpos.le
    have h1 : (1 : ℚ) ≤ 1 + g / l := by linarith
    have hle : 100 / (1 + g / l) ≤ 100 := div_le_self (by norm_num) h1
    have hpos : 0 < 100 / (1 + g / l) := div_pos (by norm_num) (by linarith)
    cases Option.some.inj h
    constructor <;> linarith

/-- C7 (amended): every defined RSI cell produced by
`calculate_technical_indicators` lies in [0, 100]; the RSI column is exactly
the float evaluation `rsiCell` of the rolling average gain and loss; and when
the 14-bar average loss is 0 the cell is 100 if the average gain is positive
but NaN (undefined) if the average gain is also 0 — the computation never
divides by zero. -/
theorem rsi_range_and_zero_loss (sq : ℚ → ℚ) (df : Df) :
    (∀ r ∈ (calculate_technical_indicators sq df).rsi.filterMap id, 0 ≤ r ∧ r ≤ 100) ∧
    ((calculate_technical_indicators sq df).rsi =
      List.zipWith rsiCell
        (rollingMean 14 ((rsiGains (diffList df.close)).map some))
        (rollingMean 14 ((rsiLosses (diffList df.close)).map some))) ∧
    (∀ g : ℚ, 0 < g → rsiCell (some g) (some 0) = some 100) ∧
    rsiCell (some 0) (some 0) = none := by
  refine ⟨?_, rfl, ?_, ?_⟩
  · intro r hr
    rw [List.mem_filterMap] at hr
    obtain ⟨cell, hcell, hid⟩ := hr
    simp only [id] at hid
    subst hid
    have hz : some r ∈
        List.zipWith rsiCell
          (rollingMean 14 ((rsiGains (diffList df.close)).map some))
          (rollingMean 14 ((rsiLosses (diffList df.close)).map some)) := hcell
    obtain ⟨go, lo, hgmem, hlmem, hc⟩ := exists_of_mem_zipWith hz
    cases go with
    | none => cases lo <;> simp [rsiCell] at hc
    | some g =>
      cases lo with
      | none => simp [rsiCell] at hc
      | some l =>
        obtain ⟨wing, hsubg, rfl⟩ := mem_rollingMean_map_some 14 _ g hgmem
        obtain ⟨winl, hsubl, rfl⟩ := mem_rollingMean_map_some 14 _ l hlmem
        have hg := listMean_nonneg wing (fun x hx => rsiGains_nonneg _ x (hsubg x hx))
        have hl := listMean_nonneg winl (fun x hx => rsiLosses_nonneg _ x (hsubl x hx))
        exact rsiCell_range _ _ r hg hl hc.symm
  · intro g hg
    simp [rsiCell, hg.ne']
  · with_unfolding_all decide

/-- Witness for the amended C7: the last RSI of the alternating 21-bar history
is 50, inside [0, 100]; an RSI cell with zero loss and positive gain is 100. -/
theorem rsi_range_and_zero_loss_witness :
    ((0 : ℚ) ≤ 50 ∧ (50 : ℚ) ≤ 100) ∧ rsiCell (some 1) (some 0) = some 100 :=
  ⟨(rsi_range_and_zero_loss ratSqrt (stockDf barsAlt21)).1 50
      (by with_unfolding_all decide),
   (rsi_range_and_zero_loss ratSqrt (stockDf barsAlt21)).2.2.1 1 (by norm_num)⟩

/-- C7 counterexample: after 15 flat closes the last 14-bar average loss is 0,
yet the last RSI cell is NaN (undefined), not 100: the zero-average-gain
corner of the claim fails. -/
theorem rsi_zero_loss_undefined :
    (rollingMean 14 ((rsiLosses (diffList (stockDf barsFlat15).close)).map some)).getLast? =
        some (some 0) ∧
    (calculate_technical_indicators ratSqrt (stockDf barsFlat15)).rsi.getLast? =
        some none := by
  constructor <;> with_unfolding_all decide

end StockApp
